import Mathlib

/-!
Verification of the Challenge Campaign Engine of `smarter-dev`.

Shallow embedding of the data model and operations in
`src/smarter_dev/web/models.py` and `src/smarter_dev/web/crud.py`
(classes `CampaignOperations`, `ChallengeInputOperations`,
`ChallengeSubmissionOperations`).  Timestamps are modelled as integers
(`Int`), database rows as structures, and each stateful operation as an
explicit state-passing function on lists of rows, mirroring the Python
control flow.  Fallible operations return `Except`.
-/

namespace SmarterDev

/-! ## Data model (`src/smarter_dev/web/models.py`) -/

/-- Embedding of the `Campaign` row: a guild-scoped schedule container
(`models.py`, class `Campaign`).  Only the fields the verified operations
read are kept. -/
structure Campaign where
  id : Nat
  guild_id : Nat
  start_time : Int
  release_cadence_hours : Int
  is_active : Bool
  deriving DecidableEq

/-- Embedding of the `Challenge` row (`models.py`, class `Challenge`):
one puzzle within a campaign, with release and announcement tracking. -/
structure Challenge where
  id : Nat
  campaign_id : Nat
  order_position : Nat
  is_released : Bool
  released_at : Option Int
  is_announced : Bool
  announced_at : Option Int
  deriving DecidableEq

/-- Embedding of `Challenge.calculate_release_time`:
`campaign_start_time + (order_position - 1) * release_cadence_hours`
(hours modelled as the time unit of the embedding). -/
def Challenge.calculate_release_time (c : Challenge)
    (campaign_start_time : Int) (release_cadence_hours : Int) : Int :=
  campaign_start_time + ((c.order_position : Int) - 1) * release_cadence_hours

/-- Embedding of the `ChallengeInput` row (`models.py`, class
`ChallengeInput`): the frozen per-(challenge, squad) input/result pair. -/
structure ChallengeInput where
  challenge_id : Nat
  squad_id : Nat
  input_data : String
  result_data : String
  created_at : Int
  deriving DecidableEq

/-- Embedding of the `ChallengeSubmission` row (`models.py`, class
`ChallengeSubmission`). -/
structure ChallengeSubmission where
  challenge_id : Nat
  squad_id : Nat
  user_id : String
  username : String
  submitted_solution : String
  is_correct : Bool
  is_first_success : Bool
  points_earned : Option Int
  deriving DecidableEq

/-- Embedding of the `Squad` row (external aggregate; only the fields read
by the scoreboard query are kept). -/
structure Squad where
  id : Nat
  name : String
  deriving DecidableEq

/-! ## Python `str.strip` -/

/-- The whitespace characters removed by Python `str.strip()` (ASCII
range: space, tab, newline, carriage return, vertical tab, form feed). -/
def isPySpace (c : Char) : Bool :=
  c = ' ' || c = '\t' || c = '\n' || c = '\r' || c = Char.ofNat 11 || c = Char.ofNat 12

/-- Embedding of Python `str.strip()`: remove leading and trailing
whitespace, leaving the interior untouched. -/
def pyStrip (s : String) : String :=
  String.mk (((s.toList.dropWhile isPySpace).reverse.dropWhile isPySpace).reverse)

/-! ## Submission arbitration (`crud.py`, class `ChallengeSubmissionOperations`) -/

/-- State read and written by `ChallengeSubmissionOperations`: the
`challenge_inputs` and `challenge_submissions` tables. -/
structure SubmissionState where
  inputs : List ChallengeInput
  subs : List ChallengeSubmission
  deriving DecidableEq

/-- Embedding of `ChallengeInputOperations.get_input_by_squad`: the row of
`challenge_inputs` keyed by (challenge_id, squad_id), if any. -/
def get_input_by_squad (inputs : List ChallengeInput)
    (challenge_id squad_id : Nat) : Option ChallengeInput :=
  inputs.find? (fun i => i.challenge_id == challenge_id && i.squad_id == squad_id)

/-- Embedding of `ChallengeSubmissionOperations._get_first_success_for_squad`:
the first submission row for (challenge, squad) with `is_correct` and
`is_first_success` both true, if any. -/
def get_first_success_for_squad (subs : List ChallengeSubmission)
    (challenge_id squad_id : Nat) : Option ChallengeSubmission :=
  subs.find? (fun s =>
    s.challenge_id == challenge_id && s.squad_id == squad_id &&
    s.is_correct && s.is_first_success)

/-- The error raised by `submit_solution` when no `ChallengeInput` row
exists for the (challenge, squad) pair (Python `ValueError`). -/
inductive SubmitError where
  | valueError : SubmitError
  deriving DecidableEq

/-- The `(is_correct, is_first_success, points_earned)` triple returned by
`submit_solution`. -/
structure SubmitResult where
  is_correct : Bool
  is_first_success : Bool
  points_earned : Option Int
  deriving DecidableEq

/-- Embedding of `ChallengeSubmissionOperations.submit_solution`.  The
point computation `_calculate_points(challenge_id, created_at)` is passed
in as the total function `calc` (the Python method catches every exception
and returns an integer unconditionally).  On success the new
`ChallengeSubmission` row is appended to the state; on error the state is
unchanged (the session is rolled back). -/
def submit_solution (calcPts : Nat → Int → Int) (st : SubmissionState)
    (challenge_id squad_id : Nat) (user_id username submitted_solution : String) :
    Except SubmitError (SubmitResult × SubmissionState) :=
  match get_input_by_squad st.inputs challenge_id squad_id with
  | none => .error .valueError
  | some challenge_input =>
    let expected_result := pyStrip challenge_input.result_data
    let submitted_solution_clean := pyStrip submitted_solution
    let is_correct := expected_result == submitted_solution_clean
    let existing_success := get_first_success_for_squad st.subs challenge_id squad_id
    let is_first_success := is_correct && existing_success.isNone
    let points_earned : Option Int :=
      if is_correct && existing_success.isNone then
        some (calcPts challenge_id challenge_input.created_at)
      else none
    let submission : ChallengeSubmission :=
      { challenge_id := challenge_id
        squad_id := squad_id
        user_id := user_id
        username := username
        submitted_solution := submitted_solution
        is_correct := is_correct
        is_first_success := is_first_success
        points_earned := points_earned }
    .ok ({ is_correct := is_correct
           is_first_success := is_first_success
           points_earned := points_earned },
         { st with subs := st.subs ++ [submission] })

/-- One call to `submit_solution`, as data. -/
structure SubmitCall where
  challenge_id : Nat
  squad_id : Nat
  user_id : String
  username : String
  submitted_solution : String
  deriving DecidableEq

/-- Apply one `submit_solution` call to the state; a failed call leaves the
state unchanged (rollback). -/
def runSubmit (calcPts : Nat → Int → Int) (st : SubmissionState) (c : SubmitCall) :
    SubmissionState :=
  match submit_solution calcPts st c.challenge_id c.squad_id c.user_id c.username
      c.submitted_solution with
  | .error _ => st
  | .ok (_, st2) => st2

/-- Apply a sequence of `submit_solution` calls in order. -/
def runSubmits (calcPts : Nat → Int → Int) (st : SubmissionState)
    (calls : List SubmitCall) : SubmissionState :=
  calls.foldl (runSubmit calcPts) st

/-- Number of rows for (challenge, squad) carrying `is_first_success = true`. -/
def firstSuccessCount (subs : List ChallengeSubmission)
    (challenge_id squad_id : Nat) : Nat :=
  (subs.filter (fun s =>
    s.challenge_id == challenge_id && s.squad_id == squad_id &&
    s.is_first_success)).length

/-- The invariant maintained by `submit_solution` on the submissions table:
every first-success row is correct, per pair there is at most one
first-success row, and a row records points exactly when it is a first
success. -/
def SubmissionsInv (subs : List ChallengeSubmission) : Prop :=
  (∀ s ∈ subs, s.is_first_success = true → s.is_correct = true) ∧
  (∀ cid sid, firstSuccessCount subs cid sid ≤ 1) ∧
  (∀ s ∈ subs, s.points_earned.isSome = s.is_first_success)

/-! ## Release clock (`crud.py`, class `CampaignOperations`) -/

/-- Embedding of `CampaignOperations.mark_challenge_released`: an SQL
`UPDATE challenges SET is_released = true, released_at = now WHERE id = ...`.
The state is the addressed challenge row (`none` when the id matches no
row).  Returns `rowcount > 0` together with the updated row. -/
def mark_challenge_released (db : Option Challenge) (now : Int) :
    Bool × Option Challenge :=
  match db with
  | none => (false, none)
  | some c => (true, some { c with is_released := true, released_at := some now })

/-- Embedding of `CampaignOperations.mark_challenge_announced`: an SQL
`UPDATE challenges SET is_announced = true, announced_at = now WHERE id = ...`. -/
def mark_challenge_announced (db : Option Challenge) (now : Int) :
    Bool × Option Challenge :=
  match db with
  | none => (false, none)
  | some c => (true, some { c with is_announced := true, announced_at := some now })

/-- One marking operation applied to a challenge row, as data. -/
inductive ChallengeMarkOp where
  | release (now : Int)
  | announce (now : Int)
  deriving DecidableEq

/-- Whether the operation is a `mark_challenge_released`. -/
def ChallengeMarkOp.isRelease : ChallengeMarkOp → Bool
  | .release _ => true
  | .announce _ => false

/-- Whether the operation is a `mark_challenge_announced`. -/
def ChallengeMarkOp.isAnnounce : ChallengeMarkOp → Bool
  | .release _ => false
  | .announce _ => true

/-- Apply one marking operation to an (existing) challenge row. -/
def applyMarkOp (c : Challenge) (op : ChallengeMarkOp) : Challenge :=
  match op with
  | .release now => ((mark_challenge_released (some c) now).2).getD c
  | .announce now => ((mark_challenge_announced (some c) now).2).getD c

/-- Apply a sequence of marking operations in order. -/
def runMarkOps (c : Challenge) (ops : List ChallengeMarkOp) : Challenge :=
  ops.foldl applyMarkOp c

/-- Embedding of `CampaignOperations.get_pending_announcements`: the SQL
query selects challenges joined with their campaign where
`is_announced = false` and the campaign `is_active = true`; Python then
filters by `now >= release_time`.  `rows` is the joined
challenges-with-campaign table. -/
def get_pending_announcements (now : Int) (rows : List (Challenge × Campaign)) :
    List Challenge :=
  let all_pending := rows.filter (fun r => !r.1.is_announced && r.2.is_active)
  (all_pending.filter (fun r =>
    decide (r.1.calculate_release_time r.2.start_time r.2.release_cadence_hours ≤ now))).map
    Prod.fst

/-! ## Input generation (`crud.py`, class `ChallengeInputOperations`) -/

/-- Decidable equality for `Except`, so that concrete runs of the fallible
operations can be evaluated by `decide`. -/
instance {ε α : Type} [DecidableEq ε] [DecidableEq α] : DecidableEq (Except ε α)
  | .error e, .error f => decidable_of_iff (e = f) (by simp)
  | .error _, .ok _ => .isFalse (by simp)
  | .ok _, .error _ => .isFalse (by simp)
  | .ok a, .ok b => decidable_of_iff (a = b) (by simp)

/-- The errors of `get_or_create_input`: missing script
(`DatabaseOperationError("No script provided ...")`) or a failed script
execution (`ScriptExecutionError`). -/
inductive GenError where
  | noScript
  | scriptError (msg : String)
  deriving DecidableEq

/-- The `challenge_inputs` table. -/
structure InputStore where
  rows : List ChallengeInput
  deriving DecidableEq

/-- Embedding of `ChallengeInputOperations.get_or_create_input`.  A script
argument of `none` models `script=None` (or empty); `some outcome` models a
provided script whose execution (`_execute_script`) would produce
`outcome` this time — outcomes may differ between calls because scripts
may use randomness.  Returns the call result, the resulting store (rolled
back on failure) and the number of script executions performed (0 or 1). -/
def get_or_create_input (st : InputStore) (challenge_id squad_id : Nat)
    (script : Option (Except String (String × String))) (now : Int) :
    Except GenError (String × String) × InputStore × Nat :=
  match st.rows.find? (fun i => i.challenge_id == challenge_id && i.squad_id == squad_id) with
  | some existing => (.ok (existing.input_data, existing.result_data), st, 0)
  | none =>
    match script with
    | none => (.error .noScript, st, 0)
    | some (.error e) => (.error (.scriptError e), st, 1)
    | some (.ok (input_data, result_data)) =>
      (.ok (input_data, result_data),
       ⟨st.rows ++ [{ challenge_id := challenge_id
                      squad_id := squad_id
                      input_data := input_data
                      result_data := result_data
                      created_at := now }]⟩, 1)

/-- One call to `get_or_create_input`, as data. -/
structure GenCall where
  challenge_id : Nat
  squad_id : Nat
  script : Option (Except String (String × String))
  now : Int
  deriving DecidableEq

/-- Apply a sequence of `get_or_create_input` calls in order, collecting
every call's result, the final store and the total number of script
executions. -/
def runGen : InputStore → List GenCall →
    List (Except GenError (String × String)) × InputStore × Nat
  | st, [] => ([], st, 0)
  | st, c :: cs =>
    let step := get_or_create_input st c.challenge_id c.squad_id c.script c.now
    let rest := runGen step.2.1 cs
    (step.1 :: rest.1, rest.2.1, step.2.2 + rest.2.2)

/-! ## Scoring -/

/-- Modelled from the spec: the scoring module `smarter_dev/web/scoring.py`
(function `calculate_challenge_points`, imported by
`ChallengeSubmissionOperations._calculate_points`) is not part of the
sources.  The spec fixes only its binding contract — deterministic,
bounded to `[0, 4096]`, equal to 4096 at `submission_time =
input_generated_at`, non-increasing in the submission time, and clamped to
0 once `submission_time ≥ challenge_end_time` — and leaves the precise
analytic curve as an implementation choice.  This model realises the
contract with a linear decay over the remaining time fraction; the clamp
to 0 at the deadline takes precedence, as the spec's clamping clause is
binding. -/
def calculate_challenge_points (input_generated_at submission_time
    challenge_end_time : Int) : Int :=
  if challenge_end_time ≤ submission_time then 0
  else if submission_time ≤ input_generated_at then 4096
  else
    max 0 (4096 * (challenge_end_time - submission_time) /
      (challenge_end_time - input_generated_at))

/-- The challenge-and-campaign data `_calculate_points` looks up: the
campaign's start time and cadence, and the number of challenges in the
campaign. -/
structure CalcPointsCtx where
  campaign_start_time : Int
  release_cadence_hours : Int
  num_challenges : Nat
  deriving DecidableEq

/-- Embedding of `ChallengeSubmissionOperations._calculate_points`.  `ctx`
is the looked-up challenge/campaign data (`none` when the challenge or its
campaign row is missing); `scoring` is the imported scoring module, with
`none` modelling `smarter_dev.web.scoring` being unavailable.  The
statement `from smarter_dev.web.scoring import calculate_challenge_points`
executes *before* the `try` block, so an unavailable module raises out of
the method (the `.error` case).  Every failure inside the `try` — a
missing challenge or campaign row, a campaign with zero challenges, or an
error raised by the imported scoring function — is caught and turned into
a return value of 0. -/
def _calculate_points (scoring : Option (Int → Int → Int → Except String Int))
    (ctx : Option CalcPointsCtx) (input_generated_at submission_time : Int) :
    Except String Int :=
  match scoring with
  | none => .error "ImportError: smarter_dev.web.scoring"
  | some score =>
    match ctx with
    | none => .ok 0
    | some c =>
      if c.num_challenges = 0 then .ok 0
      else
        let challenge_end_time := c.campaign_start_time +
          (c.num_challenges : Int) * c.release_cadence_hours
        match score input_generated_at submission_time challenge_end_time with
        | .ok points => .ok points
        | .error _ => .ok 0

/-- The integer `_calculate_points` yields when the scoring module has
been imported successfully; in that case no exception escapes the method,
so this value is total. -/
def _calculate_points_value (score : Int → Int → Int → Except String Int)
    (ctx : Option CalcPointsCtx) (input_generated_at submission_time : Int) : Int :=
  match _calculate_points (some score) ctx input_generated_at submission_time with
  | .ok points => points
  | .error _ => 0

/-- The errors of the composed submission pipeline: a missing input row
(Python `ValueError`), or an exception escaping the point computation,
which the handler of `submit_solution` turns into a rollback plus
`DatabaseOperationError` — no row is recorded. -/
inductive SubmitScoredError where
  | valueError
  | databaseOperationError
  deriving DecidableEq

/-- `submit_solution` composed with the real `_calculate_points` instead
of a total point function: the Python call
`self._calculate_points(challenge_id, challenge_input.created_at)` runs
inside the `try` of `submit_solution`, only on the first-success branch,
so an exception escaping it (only the scoring-module import can raise, see
`_calculate_points`) aborts the submission before any row is recorded. -/
def submit_solution_scored (scoring : Option (Int → Int → Int → Except String Int))
    (lookup : Nat → Option CalcPointsCtx) (now : Int) (st : SubmissionState)
    (challenge_id squad_id : Nat) (user_id username submitted_solution : String) :
    Except SubmitScoredError (SubmitResult × SubmissionState) :=
  match get_input_by_squad st.inputs challenge_id squad_id with
  | none => .error .valueError
  | some challenge_input =>
    let is_correct := pyStrip challenge_input.result_data == pyStrip submitted_solution
    let existing_success := get_first_success_for_squad st.subs challenge_id squad_id
    let is_first_success := is_correct && existing_success.isNone
    if is_first_success then
      match _calculate_points scoring (lookup challenge_id)
          challenge_input.created_at now with
      | .error _ => .error .databaseOperationError
      | .ok points =>
        let submission : ChallengeSubmission :=
          { challenge_id := challenge_id
            squad_id := squad_id
            user_id := user_id
            username := username
            submitted_solution := submitted_solution
            is_correct := is_correct
            is_first_success := is_first_success
            points_earned := some points }
        .ok ({ is_correct := is_correct
               is_first_success := is_first_success
               points_earned := some points },
             { st with subs := st.subs ++ [submission] })
    else
      let submission : ChallengeSubmission :=
        { challenge_id := challenge_id
          squad_id := squad_id
          user_id := user_id
          username := username
          submitted_solution := submitted_solution
          is_correct := is_correct
          is_first_success := is_first_success
          points_earned := none }
      .ok ({ is_correct := is_correct
             is_first_success := is_first_success
             points_earned := none },
           { st with subs := st.subs ++ [submission] })

/-! ## Scoreboard (`crud.py`, `get_campaign_scoreboard`) -/

/-- One row of the scoreboard result. -/
structure ScoreboardEntry where
  squad_id : Nat
  squad_name : String
  total_points : Int
  successful_submissions : Nat
  deriving DecidableEq

/-- The submissions of squad `squad_id` whose challenge belongs to campaign
`campaign_id` (the join `Squad ⟕ ChallengeSubmission ⟕ Challenge`
restricted by `Challenge.campaign_id = campaign_id`). -/
def squad_campaign_submissions (challenges : List Challenge)
    (subs : List ChallengeSubmission) (campaign_id squad_id : Nat) :
    List ChallengeSubmission :=
  subs.filter (fun s =>
    s.squad_id == squad_id &&
    challenges.any (fun ch => ch.id == s.challenge_id && ch.campaign_id == campaign_id))

/-- The grouped row for one squad: `coalesce(sum(points_earned), 0)` (SQL
`SUM` skips nulls) and the count of `is_first_success = true` rows. -/
def mkScoreboardEntry (sq : Squad) (ssubs : List ChallengeSubmission) :
    ScoreboardEntry :=
  { squad_id := sq.id
    squad_name := sq.name
    total_points := (ssubs.filterMap (fun s => s.points_earned)).sum
    successful_submissions := (ssubs.filter (fun s => s.is_first_success)).length }

/-- Insert an entry into a list already sorted by descending
`total_points`, keeping it sorted (model of SQL `ORDER BY ... DESC`). -/
def insertByPointsDesc (e : ScoreboardEntry) :
    List ScoreboardEntry → List ScoreboardEntry
  | [] => [e]
  | x :: xs =>
    if x.total_points < e.total_points then e :: x :: xs
    else x :: insertByPointsDesc e xs

/-- Sort entries by descending `total_points`. -/
def sortByPointsDesc (l : List ScoreboardEntry) : List ScoreboardEntry :=
  l.foldr insertByPointsDesc []

/-- Embedding of `ChallengeSubmissionOperations.get_campaign_scoreboard`:
group the campaign's submissions by squad (squads joined to no submission
row of the campaign are eliminated by the `WHERE Challenge.campaign_id = _`
clause over the outer join), aggregate, and order by total points
descending. -/
def get_campaign_scoreboard (squads : List Squad) (challenges : List Challenge)
    (subs : List ChallengeSubmission) (campaign_id : Nat) : List ScoreboardEntry :=
  sortByPointsDesc (squads.filterMap (fun sq =>
    let ssubs := squad_campaign_submissions challenges subs campaign_id sq.id
    if ssubs.isEmpty then none else some (mkScoreboardEntry sq ssubs)))

/-! ## Concrete example rows, used to evaluate the operations -/

/-- A challenge that has never been released nor announced. -/
def freshChallenge : Challenge :=
  { id := 1, campaign_id := 1, order_position := 1, is_released := false,
    released_at := none, is_announced := false, announced_at := none }

/-- A challenge already released and announced at time 5. -/
def markedChallenge : Challenge :=
  { id := 1, campaign_id := 1, order_position := 1, is_released := true,
    released_at := some 5, is_announced := true, announced_at := some 5 }

/-- An active campaign starting at time 0 with cadence 1. -/
def activeCampaign : Campaign :=
  { id := 1, guild_id := 1, start_time := 0, release_cadence_hours := 1,
    is_active := true }

/-! ## Theorems -/

/-- Claim C5, counterexample: `mark_challenge_released` /
`mark_challenge_announced` are not set-once.  Re-invoking them on a
challenge whose flag is already set and whose timestamp was originally
recorded as 5 overwrites the timestamp with the new invocation time 10,
rather than leaving it unchanged as the claim states. -/
theorem mark_released_overwrites_timestamp :
    ((mark_challenge_released (some markedChallenge) 10).2.map
      (fun c => c.released_at)) = some (some 10) ∧
    ((mark_challenge_announced (some markedChallenge) 10).2.map
      (fun c => c.announced_at)) = some (some 10) ∧
    markedChallenge.released_at = some 5 ∧ markedChallenge.announced_at = some 5 ∧
    some (some (10 : Int)) ≠ some (some (5 : Int)) := by
  refine ⟨rfl, rfl, rfl, rfl, by decide⟩

/-- Claim C5 (amended): `mark_challenge_released` and
`mark_challenge_announced` always succeed on an existing challenge —
re-invoking on an already-set challenge is a success, not an error, and the
flag stays set — but each invocation records the *current* time in
`released_at` / `announced_at`, overwriting any earlier timestamp; all
other fields of the row are unchanged.  On a missing challenge both return
failure without touching state. -/
theorem mark_operations_set_flag_and_latest_timestamp :
    ∀ (c : Challenge) (now : Int),
      mark_challenge_released (some c) now =
        (true, some { c with is_released := true, released_at := some now }) ∧
      mark_challenge_announced (some c) now =
        (true, some { c with is_announced := true, announced_at := some now }) ∧
      mark_challenge_released none now = (false, none) ∧
      mark_challenge_announced none now = (false, none) := by
  intro c now
  exact ⟨rfl, rfl, rfl, rfl⟩

/-- Claim C6, counterexample: from a fresh challenge (neither released nor
announced), a single `mark_challenge_announced` call reaches a state that
is announced but not released — the operations do not enforce the claimed
ordering. -/
theorem announced_without_released_reachable :
    (runMarkOps freshChallenge [.announce 0]).is_announced = true ∧
    (runMarkOps freshChallenge [.announce 0]).is_released = false := by
  exact ⟨rfl, rfl⟩

/-- Claim C6 (amended): the two flags evolve independently under the mark
operations.  After any sequence of operations, `is_released` holds iff it
held initially or some `mark_challenge_released` occurred, and
`is_announced` holds iff it held initially or some
`mark_challenge_announced` occurred.  In particular the state announced-
but-not-released is reachable from a fresh challenge (by announcing
without releasing), so the claimed invariant is not enforced by the
operations and must be maintained by their callers. -/
theorem mark_flags_evolve_independently :
    ∀ (c : Challenge) (ops : List ChallengeMarkOp),
      (runMarkOps c ops).is_released
          = (c.is_released || ops.any ChallengeMarkOp.isRelease) ∧
      (runMarkOps c ops).is_announced
          = (c.is_announced || ops.any ChallengeMarkOp.isAnnounce) := by
  intro c ops
  induction ops generalizing c with
  | nil => simp [runMarkOps]
  | cons op rest ih =>
    cases op with
    | release now =>
      have h := ih { c with is_released := true, released_at := some now }
      simp [runMarkOps, applyMarkOp, mark_challenge_released, ChallengeMarkOp.isRelease,
        ChallengeMarkOp.isAnnounce] at h ⊢
      exact ⟨h.1, h.2⟩
    | announce now =>
      have h := ih { c with is_announced := true, announced_at := some now }
      simp [runMarkOps, applyMarkOp, mark_challenge_announced, ChallengeMarkOp.isRelease,
        ChallengeMarkOp.isAnnounce] at h ⊢
      exact ⟨h.1, h.2⟩

/-- Claim C8, counterexample: `get_pending_announcements` does not require
`is_released = true`.  A challenge that has never been released — but is
unannounced, belongs to an active campaign, and is past its computed
release time — is returned, contradicting the claim that every returned
challenge is released. -/
theorem pending_announcements_include_unreleased :
    freshChallenge ∈ get_pending_announcements 0 [(freshChallenge, activeCampaign)] ∧
    freshChallenge.is_released = false := by
  exact ⟨by decide, rfl⟩

/-- Claim C8 (amended): `get_pending_announcements` returns exactly the
challenges that are not yet announced, belong to an *active* campaign, and
whose computed release time (campaign start + (position − 1) × cadence)
has passed — whether or not they have been marked released.  (The claimed
`is_released` condition is not checked, and the claim omits the
active-campaign condition.) -/
theorem pending_announcements_characterization :
    ∀ (now : Int) (rows : List (Challenge × Campaign)) (ch : Challenge),
      ch ∈ get_pending_announcements now rows ↔
        ∃ camp : Campaign, (ch, camp) ∈ rows ∧ ch.is_announced = false ∧
          camp.is_active = true ∧
          ch.calculate_release_time camp.start_time camp.release_cadence_hours ≤ now := by
  intro now rows ch
  simp only [get_pending_announcements, List.mem_map, List.mem_filter,
    Bool.and_eq_true, Bool.not_eq_true', decide_eq_true_eq]
  constructor
  · rintro ⟨⟨c, camp⟩, ⟨⟨hmem, hann, hact⟩, hrel⟩, rfl⟩
    exact ⟨camp, hmem, hann, hact, hrel⟩
  · rintro ⟨camp, hmem, hann, hact, hrel⟩
    exact ⟨(ch, camp), ⟨⟨hmem, hann, hact⟩, hrel⟩, rfl⟩

/-! ### Scoring contract (C3) -/

/-- Evaluation of the scoring model past the deadline. -/
theorem cp_of_end_le {t0 t e : Int} (h : e ≤ t) :
    calculate_challenge_points t0 t e = 0 := by
  unfold calculate_challenge_points
  rw [if_pos h]

/-- Evaluation of the scoring model at or before the generation time,
before the deadline. -/
theorem cp_of_le_t0 {t0 t e : Int} (h1 : ¬ e ≤ t) (h2 : t ≤ t0) :
    calculate_challenge_points t0 t e = 4096 := by
  unfold calculate_challenge_points
  rw [if_neg h1, if_pos h2]

/-- Evaluation of the scoring model in the interior decay phase. -/
theorem cp_of_mid {t0 t e : Int} (h1 : ¬ e ≤ t) (h2 : ¬ t ≤ t0) :
    calculate_challenge_points t0 t e =
      max 0 (4096 * (e - t) / (e - t0)) := by
  unfold calculate_challenge_points
  rw [if_neg h1, if_neg h2]

/-- The scoring model never returns a negative value. -/
theorem cp_nonneg (t0 t e : Int) : 0 ≤ calculate_challenge_points t0 t e := by
  unfold calculate_challenge_points
  split
  · exact le_refl 0
  · split
    · norm_num
    · exact le_max_left 0 _

/-- The interior decay value is bounded by 4096. -/
theorem cp_mid_le {t0 t e : Int} (h1 : t0 < t) (h2 : t < e) :
    max 0 (4096 * (e - t) / (e - t0)) ≤ 4096 := by
  have hd : 0 < e - t0 := by linarith
  have hnum : 4096 * (e - t) ≤ 4096 * (e - t0) := by nlinarith
  have hq : 4096 * (e - t) / (e - t0) ≤ 4096 * (e - t0) / (e - t0) :=
    Int.ediv_le_ediv hd hnum
  have hcancel : 4096 * (e - t0) / (e - t0) = 4096 :=
    Int.mul_ediv_cancel 4096 (by linarith)
  exact max_le (by norm_num) (by rw [hcancel] at hq; exact hq)

/-- The scoring model never exceeds 4096. -/
theorem cp_le_4096 (t0 t e : Int) : calculate_challenge_points t0 t e ≤ 4096 := by
  by_cases h1 : e ≤ t
  · rw [cp_of_end_le h1]; norm_num
  · by_cases h2 : t ≤ t0
    · rw [cp_of_le_t0 h1 h2]
    · rw [cp_of_mid h1 h2]
      exact cp_mid_le (lt_of_not_le h2) (lt_of_not_le h1)

/-- Claim C3, counterexample: the claim demands both `4096 at t = t0` and
`0 for every t ≥ end`, which conflict whenever `t0 ≥ end`; the binding
clamp of the spec's contract makes the deadline win, so at
`t0 = t = end = 0` the value is 0, not 4096, even though `t = t0`. -/
theorem calculate_points_at_origin_not_4096 :
    calculate_challenge_points 0 0 0 = 0 ∧
    calculate_challenge_points 0 0 0 ≠ 4096 := by
  exact ⟨rfl, by decide⟩

/-- Claim C3 (amended): `calculate_challenge_points t0 t e` is a pure
function of its arguments (hence deterministic), lies in `[0, 4096]`,
equals 4096 at `t = t0` *provided `t0 < e`*, equals 0 for every `t ≥ e`,
and is non-increasing as `t` grows with `t0` and `e` fixed. -/
theorem calculate_points_contract :
    ∀ (t0 t t2 e : Int),
      (0 ≤ calculate_challenge_points t0 t e ∧
        calculate_challenge_points t0 t e ≤ 4096) ∧
      (t0 < e → calculate_challenge_points t0 t0 e = 4096) ∧
      (e ≤ t → calculate_challenge_points t0 t e = 0) ∧
      (t ≤ t2 → calculate_challenge_points t0 t2 e ≤ calculate_challenge_points t0 t e) := by
  intro t0 t t2 e
  refine ⟨⟨cp_nonneg t0 t e, cp_le_4096 t0 t e⟩, ?_, cp_of_end_le, ?_⟩
  · intro h
    exact cp_of_le_t0 (not_le_of_lt h) (le_refl t0)
  · intro h
    by_cases hA : e ≤ t2
    · rw [cp_of_end_le hA]
      exact cp_nonneg t0 t e
    · have hB : ¬ e ≤ t := fun hc => hA (le_trans hc h)
      by_cases hC : t2 ≤ t0
      · rw [cp_of_le_t0 hA hC, cp_of_le_t0 hB (le_trans h hC)]
      · rw [cp_of_mid hA hC]
        by_cases hD : t ≤ t0
        · rw [cp_of_le_t0 hB hD]
          exact cp_mid_le (lt_of_not_le hC) (lt_of_not_le hA)
        · rw [cp_of_mid hB hD]
          have hd : 0 < e - t0 := by
            have := lt_of_not_le hD
            have := lt_of_not_le hB
            linarith
          have hnum : 4096 * (e - t2) ≤ 4096 * (e - t) := by nlinarith
          exact max_le_max (le_refl 0) (Int.ediv_le_ediv hd hnum)

/-- Claim C3, witness: the contract theorem applied at concrete inputs,
discharging each hypothesis. -/
theorem calculate_points_contract_witness :
    calculate_challenge_points 0 0 10 = 4096 ∧
    calculate_challenge_points 0 12 10 = 0 ∧
    calculate_challenge_points 0 5 10 ≤ calculate_challenge_points 0 3 10 :=
  ⟨(calculate_points_contract 0 0 0 10).2.1 (by decide),
   (calculate_points_contract 0 12 12 10).2.2.1 (by decide),
   (calculate_points_contract 0 3 5 10).2.2.2 (by decide)⟩

/-! ### Submission arbitration: shape of a successful call -/

/-- A successful `submit_solution` call finds an input row, judges
correctness by comparing the stripped expected result with the stripped
submission, awards first success iff correct and no first-success row
exists, and appends exactly one submission row. -/
theorem submit_solution_ok_shape :
    ∀ (calcPts : Nat → Int → Int) (st : SubmissionState) (cid sid : Nat)
      (u un txt : String) (res : SubmitResult) (st2 : SubmissionState),
      submit_solution calcPts st cid sid u un txt = .ok (res, st2) →
      ∃ inp, get_input_by_squad st.inputs cid sid = some inp ∧
        res = { is_correct := pyStrip inp.result_data == pyStrip txt
                is_first_success := (pyStrip inp.result_data == pyStrip txt) &&
                  (get_first_success_for_squad st.subs cid sid).isNone
                points_earned :=
                  if (pyStrip inp.result_data == pyStrip txt) &&
                      (get_first_success_for_squad st.subs cid sid).isNone then
                    some (calcPts cid inp.created_at)
                  else none } ∧
        st2 = { st with subs := st.subs ++
                  [{ challenge_id := cid
                     squad_id := sid
                     user_id := u
                     username := un
                     submitted_solution := txt
                     is_correct := res.is_correct
                     is_first_success := res.is_first_success
                     points_earned := res.points_earned }] } := by
  intro calcPts st cid sid u un txt res st2 hok
  unfold submit_solution at hok
  cases hin : get_input_by_squad st.inputs cid sid with
  | none =>
    rw [hin] at hok
    exact absurd hok (by simp)
  | some inp =>
    rw [hin] at hok
    simp only [Except.ok.injEq, Prod.mk.injEq] at hok
    obtain ⟨hres, hst⟩ := hok
    subst hres
    exact ⟨inp, rfl, rfl, hst.symm⟩

/-- Claim C7: a successful `submit_solution` call judges the submission
correct exactly when the stored expected result and the submitted text,
each with surrounding whitespace stripped, are equal strings — no numeric
tolerance, no fuzzy matching, so any other difference (internal whitespace
included) yields `is_correct = false`. -/
theorem submit_solution_exact_match :
    ∀ (calcPts : Nat → Int → Int) (st : SubmissionState) (cid sid : Nat)
      (u un txt : String) (inp : ChallengeInput) (res : SubmitResult)
      (st2 : SubmissionState),
      get_input_by_squad st.inputs cid sid = some inp →
      submit_solution calcPts st cid sid u un txt = .ok (res, st2) →
      (res.is_correct = true ↔ pyStrip inp.result_data = pyStrip txt) := by
  intro calcPts st cid sid u un txt inp res st2 hin hok
  obtain ⟨inp2, hin2, hres, -⟩ := submit_solution_ok_shape calcPts st cid sid u un txt res st2 hok
  rw [hin] at hin2
  cases hin2
  subst hres
  exact beq_iff_eq ..

/-- Claim C7, witness: the exact-match theorem applied to a concrete state
whose expected result is `" 42 "` and a submission `"42"`. -/
theorem submit_solution_exact_match_witness :
    (({ is_correct := true, is_first_success := true, points_earned := some 7 } :
        SubmitResult).is_correct = true ↔ pyStrip " 42 " = pyStrip "42") :=
  submit_solution_exact_match (fun _ _ => 7) ⟨[⟨1, 2, "in", " 42 ", 0⟩], []⟩ 1 2
    "u" "n" "42" ⟨1, 2, "in", " 42 ", 0⟩ ⟨true, true, some 7⟩
    ⟨[⟨1, 2, "in", " 42 ", 0⟩], [⟨1, 2, "u", "n", "42", true, true, some 7⟩]⟩
    (by decide) (by decide)

/-! ### First-success uniqueness (C1) and the points/flag link (C2) -/

/-- Counting first-success rows across an appended row. -/
theorem firstSuccessCount_append (subs : List ChallengeSubmission)
    (row : ChallengeSubmission) (cid sid : Nat) :
    firstSuccessCount (subs ++ [row]) cid sid =
      firstSuccessCount subs cid sid +
        (if row.challenge_id == cid && row.squad_id == sid && row.is_first_success
          then 1 else 0) := by
  unfold firstSuccessCount
  rw [List.filter_append, List.length_append]
  congr 1
  by_cases h : (row.challenge_id == cid && row.squad_id == sid && row.is_first_success) = true
  · rw [if_pos h]
    simp [List.filter, h]
  · rw [if_neg h]
    simp only [Bool.not_eq_true] at h
    simp [List.filter, h]

/-- If no (correct ∧ first-success) row exists for a pair and every
first-success row is correct, then the pair has no first-success row at
all. -/
theorem firstSuccessCount_zero_of_find_none {subs : List ChallengeSubmission}
    {cid sid : Nat}
    (hcorr : ∀ s ∈ subs, s.is_first_success = true → s.is_correct = true)
    (hnone : get_first_success_for_squad subs cid sid = none) :
    firstSuccessCount subs cid sid = 0 := by
  unfold get_first_success_for_squad at hnone
  rw [List.find?_eq_none] at hnone
  unfold firstSuccessCount
  rw [List.length_eq_zero, List.filter_eq_nil_iff]
  intro s hs hpred
  simp only [Bool.and_eq_true, beq_iff_eq] at hpred
  obtain ⟨⟨hc1, hc2⟩, hfs⟩ := hpred
  have hco := hcorr s hs hfs
  have hnp := hnone s hs
  simp only [Bool.and_eq_true, beq_iff_eq] at hnp
  exact hnp ⟨⟨⟨hc1, hc2⟩, hco⟩, hfs⟩

/-- One `submit_solution` call preserves the submissions invariant. -/
theorem submissionsInv_step (calcPts : Nat → Int → Int) (st : SubmissionState)
    (c : SubmitCall) (h : SubmissionsInv st.subs) :
    SubmissionsInv (runSubmit calcPts st c).subs := by
  unfold runSubmit
  cases hsub : submit_solution calcPts st c.challenge_id c.squad_id c.user_id
      c.username c.submitted_solution with
  | error e => exact h
  | ok p =>
    obtain ⟨res, st2⟩ := p
    obtain ⟨inp, hin, hres, hst⟩ :=
      submit_solution_ok_shape calcPts st c.challenge_id c.squad_id c.user_id
        c.username c.submitted_solution res st2 hsub
    subst hres
    subst hst
    refine ⟨?_, ?_, ?_⟩
    · intro s hs hfs
      rcases List.mem_append.mp hs with hmem | hmem
      · exact h.1 s hmem hfs
      · rw [List.mem_singleton.mp hmem] at hfs ⊢
        simp only [Bool.and_eq_true] at hfs
        exact hfs.1
    · intro cid sid
      rw [firstSuccessCount_append]
      by_cases hrow : ((c.challenge_id : Nat) == cid && (c.squad_id : Nat) == sid &&
          ((pyStrip inp.result_data == pyStrip c.submitted_solution) &&
            (get_first_success_for_squad st.subs c.challenge_id c.squad_id).isNone)) = true
      · simp only [hrow, if_pos]
        simp only [Bool.and_eq_true, beq_iff_eq] at hrow
        obtain ⟨⟨hc1, hc2⟩, -, hiso⟩ := hrow
        have hnone : get_first_success_for_squad st.subs c.challenge_id c.squad_id = none :=
          Option.isNone_iff_eq_none.mp hiso
        have hz := firstSuccessCount_zero_of_find_none h.1 hnone
        rw [hc1, hc2] at hz
        omega
      · simp only [Bool.not_eq_true] at hrow
        simp only [hrow, if_neg, Bool.false_eq_true, not_false_iff, reduceIte]
        have := h.2.1 cid sid
        omega
    · intro s hs
      rcases List.mem_append.mp hs with hmem | hmem
      · exact h.2.2 s hmem
      · rw [List.mem_singleton.mp hmem]
        by_cases hb : ((pyStrip inp.result_data == pyStrip c.submitted_solution) &&
            (get_first_success_for_squad st.subs c.challenge_id c.squad_id).isNone) = true
        · simp [hb]
        · simp only [Bool.not_eq_true] at hb
          simp [hb]

/-- A sequence of `submit_solution` calls preserves the submissions
invariant. -/
theorem submissionsInv_run (calcPts : Nat → Int → Int) (calls : List SubmitCall) :
    ∀ st : SubmissionState, SubmissionsInv st.subs →
      SubmissionsInv (runSubmits calcPts st calls).subs := by
  induction calls with
  | nil => intro st h; exact h
  | cons c cs ih =>
    intro st h
    have h2 := submissionsInv_step calcPts st c h
    simpa [runSubmits, List.foldl] using ih _ h2

/-- The empty submissions table satisfies the invariant. -/
theorem submissionsInv_nil : SubmissionsInv [] := by
  refine ⟨?_, ?_, ?_⟩ <;> simp [firstSuccessCount]

/-- Claim C1: across every sequence of `submit_solution` calls starting
from an empty submissions table, each (challenge, squad) pair has at most
one row with `is_first_success = true`; moreover every successful call
appends exactly one row, whose `is_first_success` flag is set exactly when
the submission is correct and no prior first-success row exists for the
pair (so every later correct submission for the pair is recorded with
`is_first_success = false`). -/
theorem first_success_at_most_one_per_pair :
    ∀ (calcPts : Nat → Int → Int) (inputs : List ChallengeInput)
      (calls : List SubmitCall) (challenge_id squad_id : Nat),
      firstSuccessCount
        (runSubmits calcPts { inputs := inputs, subs := [] } calls).subs
        challenge_id squad_id ≤ 1 ∧
      (∀ (st : SubmissionState) (c : SubmitCall) (res : SubmitResult)
         (st2 : SubmissionState),
        submit_solution calcPts st c.challenge_id c.squad_id c.user_id c.username
            c.submitted_solution = .ok (res, st2) →
        ∃ row, st2.subs = st.subs ++ [row] ∧ row.is_correct = res.is_correct ∧
          (row.is_first_success = true ↔ (row.is_correct = true ∧
            get_first_success_for_squad st.subs c.challenge_id c.squad_id = none))) := by
  intro calcPts inputs calls challenge_id squad_id
  constructor
  · exact (submissionsInv_run calcPts calls
      { inputs := inputs, subs := [] } submissionsInv_nil).2.1 challenge_id squad_id
  · intro st c res st2 hok
    obtain ⟨inp, hin, hres, hst⟩ :=
      submit_solution_ok_shape calcPts st c.challenge_id c.squad_id c.user_id
        c.username c.submitted_solution res st2 hok
    subst hres
    subst hst
    refine ⟨_, rfl, rfl, ?_⟩
    simp only [Bool.and_eq_true, Option.isNone_iff_eq_none]

/-- Claim C1, witness: the uniqueness bound and the step characterization
applied to a concrete two-submission run in which both members of squad 2
submit the correct answer. -/
theorem first_success_at_most_one_per_pair_witness :
    firstSuccessCount
      (runSubmits (fun _ _ => 0) { inputs := [⟨1, 2, "in", "42", 0⟩], subs := [] }
        [⟨1, 2, "u", "n", "42"⟩, ⟨1, 2, "v", "m", "42"⟩]).subs 1 2 ≤ 1 ∧
    (∃ row, (⟨[⟨1, 2, "in", "42", 0⟩],
          [⟨1, 2, "u", "n", "42", true, true, some 0⟩]⟩ : SubmissionState).subs
        = (⟨[⟨1, 2, "in", "42", 0⟩], []⟩ : SubmissionState).subs ++ [row] ∧
      row.is_correct = (⟨true, true, some 0⟩ : SubmitResult).is_correct ∧
      (row.is_first_success = true ↔ (row.is_correct = true ∧
        get_first_success_for_squad
          (⟨[⟨1, 2, "in", "42", 0⟩], []⟩ : SubmissionState).subs 1 2 = none))) :=
  ⟨(first_success_at_most_one_per_pair (fun _ _ => 0) [⟨1, 2, "in", "42", 0⟩]
      [⟨1, 2, "u", "n", "42"⟩, ⟨1, 2, "v", "m", "42"⟩] 1 2).1,
   (first_success_at_most_one_per_pair (fun _ _ => 0) [⟨1, 2, "in", "42", 0⟩]
      [⟨1, 2, "u", "n", "42"⟩, ⟨1, 2, "v", "m", "42"⟩] 1 2).2
     ⟨[⟨1, 2, "in", "42", 0⟩], []⟩ ⟨1, 2, "u", "n", "42"⟩ ⟨true, true, some 0⟩
     ⟨[⟨1, 2, "in", "42", 0⟩], [⟨1, 2, "u", "n", "42", true, true, some 0⟩]⟩
     (by decide)⟩

/-- Claim C2: every row recorded by any sequence of `submit_solution`
calls has `points_earned` non-null exactly when `is_first_success` is
true: a first success always records an integer point value, and every
other submission records `points_earned` as null. -/
theorem points_earned_iff_first_success :
    ∀ (calcPts : Nat → Int → Int) (inputs : List ChallengeInput)
      (calls : List SubmitCall) (r : ChallengeSubmission),
      r ∈ (runSubmits calcPts { inputs := inputs, subs := [] } calls).subs →
      r.points_earned.isSome = r.is_first_success := by
  intro calcPts inputs calls r hr
  exact (submissionsInv_run calcPts calls
    { inputs := inputs, subs := [] } submissionsInv_nil).2.2 r hr

/-- Claim C2, witness: the points/flag link applied to the concrete
incorrect submission recorded by a one-call run. -/
theorem points_earned_iff_first_success_witness :
    (ChallengeSubmission.mk 1 2 "u" "n" "7" false false none).points_earned.isSome
      = (ChallengeSubmission.mk 1 2 "u" "n" "7" false false none).is_first_success :=
  points_earned_iff_first_success (fun _ _ => 0) [⟨1, 2, "in", "42", 0⟩]
    [⟨1, 2, "u", "n", "7"⟩] ⟨1, 2, "u", "n", "7", false, false, none⟩ (by decide)

/-! ### Point-calculation failures and the submission pipeline (C10) -/

/-- With the scoring module imported, `_calculate_points` never raises:
it returns the total value `_calculate_points_value`. -/
theorem calculate_points_present_ok
    (score : Int → Int → Int → Except String Int) (ctx : Option CalcPointsCtx)
    (t0 t : Int) :
    _calculate_points (some score) ctx t0 t
      = .ok (_calculate_points_value score ctx t0 t) := by
  unfold _calculate_points_value
  cases ctx with
  | none => rfl
  | some c =>
    by_cases h : c.num_challenges = 0
    · simp [_calculate_points, h]
    · simp only [_calculate_points, h, if_neg]
      cases hs : score t0 t (c.campaign_start_time +
          (c.num_challenges : Int) * c.release_cadence_hours) with
      | ok p => simp [hs]
      | error e => simp [hs]

/-- `Except.toOption` determines the success payload. -/
theorem except_toOption_eq_some {ε α : Type} (e : Except ε α) (x : α) :
    e.toOption = some x ↔ e = .ok x := by
  cases e <;> simp [Except.toOption]

/-- With the scoring module imported, the composed pipeline
`submit_solution_scored` behaves exactly like the factored embedding
`submit_solution` applied to the total point function
`_calculate_points_value`. -/
theorem submit_solution_scored_bridge
    (score : Int → Int → Int → Except String Int)
    (lookup : Nat → Option CalcPointsCtx) (now : Int) (st : SubmissionState)
    (cid sid : Nat) (u un txt : String) :
    (submit_solution_scored (some score) lookup now st cid sid u un txt).toOption
      = (submit_solution (fun c a => _calculate_points_value score (lookup c) a now)
          st cid sid u un txt).toOption := by
  cases hin : get_input_by_squad st.inputs cid sid with
  | none => simp [submit_solution_scored, submit_solution, hin, Except.toOption]
  | some inp =>
    by_cases hf : ((pyStrip inp.result_data == pyStrip txt) &&
        (get_first_success_for_squad st.subs cid sid).isNone) = true
    · simp [submit_solution_scored, submit_solution, hin, hf, Except.toOption,
        calculate_points_present_ok score (lookup cid) inp.created_at now]
    · simp only [Bool.not_eq_true] at hf
      simp [submit_solution_scored, submit_solution, hin, hf, Except.toOption]

/-- Claim C10, counterexample: the claim names "scoring module
unavailable" among the failures `_calculate_points` turns into 0, but
the scoring-module import precedes the `try` block, so an unavailable
module raises out of `_calculate_points` instead of returning 0, and the
correct first submission does not commit: `submit_solution` rolls back and
fails with `DatabaseOperationError`, recording no row. -/
theorem scoring_import_error_propagates :
    _calculate_points none (some ⟨0, 1, 1⟩) 0 0
      = .error "ImportError: smarter_dev.web.scoring" ∧
    _calculate_points none (some ⟨0, 1, 1⟩) 0 0 ≠ .ok 0 ∧
    submit_solution_scored none (fun _ => some ⟨0, 1, 1⟩) 0
        ⟨[⟨1, 2, "in", "42", 0⟩], []⟩ 1 2 "u" "n" "42"
      = .error .databaseOperationError := by
  exact ⟨rfl, by decide, by decide⟩

/-- Claim C10 (amended): every failure *inside the `try` block* of
`_calculate_points` — a missing challenge or campaign row, a campaign with
zero challenges, or an error raised by the scoring call — yields 0 instead
of propagating, so a first-success submission whose point computation
failed in one of these ways still commits with `is_first_success = true`
and `points_earned = some 0`, permanently consuming the squad's
first-success slot (every later correct submission for the pair is
recorded with `is_first_success = false`).  An *unavailable scoring
module*, however, raises at the import, which precedes the `try`, so the
error propagates and the submission fails with `DatabaseOperationError`
before any row is recorded.  With the module imported, the composed
pipeline coincides with the factored `submit_solution` embedding. -/
theorem calculate_points_failure_consumes_slot :
    ∀ (score : Int → Int → Int → Except String Int)
      (lookup : Nat → Option CalcPointsCtx) (now t0 t : Int)
      (ctx : CalcPointsCtx) (e : String),
      _calculate_points (some score) none t0 t = .ok 0 ∧
      (ctx.num_challenges = 0 →
        _calculate_points (some score) (some ctx) t0 t = .ok 0) ∧
      (ctx.num_challenges ≠ 0 →
        score t0 t (ctx.campaign_start_time +
          (ctx.num_challenges : Int) * ctx.release_cadence_hours) = .error e →
        _calculate_points (some score) (some ctx) t0 t = .ok 0) ∧
      (∀ ctx2 : Option CalcPointsCtx,
        _calculate_points none ctx2 t0 t
          = .error "ImportError: smarter_dev.web.scoring") ∧
      (∀ (st : SubmissionState) (cid sid : Nat) (u un txt : String),
        (submit_solution_scored (some score) lookup now st cid sid u un txt).toOption
          = (submit_solution
              (fun c a => _calculate_points_value score (lookup c) a now)
              st cid sid u un txt).toOption) ∧
      (∀ (st : SubmissionState) (cid sid : Nat) (u un txt : String)
         (inp : ChallengeInput) (res : SubmitResult) (st2 : SubmissionState),
        (∀ c a, _calculate_points_value score (lookup c) a now = 0) →
        get_input_by_squad st.inputs cid sid = some inp →
        pyStrip inp.result_data = pyStrip txt →
        get_first_success_for_squad st.subs cid sid = none →
        submit_solution_scored (some score) lookup now st cid sid u un txt
          = .ok (res, st2) →
        res.is_correct = true ∧ res.is_first_success = true ∧
        res.points_earned = some 0 ∧
        (∀ (u2 un2 txt2 : String) (res2 : SubmitResult) (st3 : SubmissionState),
          submit_solution_scored (some score) lookup now st2 cid sid u2 un2 txt2
            = .ok (res2, st3) →
          res2.is_first_success = false)) ∧
      (∀ (st : SubmissionState) (cid sid : Nat) (u un txt : String)
         (inp : ChallengeInput),
        get_input_by_squad st.inputs cid sid = some inp →
        pyStrip inp.result_data = pyStrip txt →
        get_first_success_for_squad st.subs cid sid = none →
        submit_solution_scored none lookup now st cid sid u un txt
          = .error .databaseOperationError) := by
  intro score lookup now t0 t ctx e
  refine ⟨rfl, ?_, ?_, fun _ => rfl, ?_, ?_, ?_⟩
  · intro h
    simp [_calculate_points, h]
  · intro h1 h2
    simp [_calculate_points, h1, h2]
  · intro st cid sid u un txt
    exact submit_solution_scored_bridge score lookup now st cid sid u un txt
  · intro st cid sid u un txt inp res st2 hval hin heq hnone hok
    have hplain : submit_solution
        (fun c a => _calculate_points_value score (lookup c) a now)
        st cid sid u un txt = .ok (res, st2) := by
      have hbr := submit_solution_scored_bridge score lookup now st cid sid u un txt
      rw [hok] at hbr
      exact (except_toOption_eq_some _ _).mp hbr.symm
    obtain ⟨inp2, hin2, hres, hst⟩ :=
      submit_solution_ok_shape _ st cid sid u un txt res st2 hplain
    rw [hin] at hin2
    cases hin2
    subst hres
    have hb : (pyStrip inp.result_data == pyStrip txt) = true := beq_iff_eq.mpr heq
    have hn : (get_first_success_for_squad st.subs cid sid).isNone = true := by
      rw [hnone]; rfl
    refine ⟨hb, by simp [hb, hn], by simp [hb, hn, hval], ?_⟩
    intro u2 un2 txt2 res2 st3 hok2
    have hplain2 : submit_solution
        (fun c a => _calculate_points_value score (lookup c) a now)
        st2 cid sid u2 un2 txt2 = .ok (res2, st3) := by
      have hbr := submit_solution_scored_bridge score lookup now st2 cid sid u2 un2 txt2
      rw [hok2] at hbr
      exact (except_toOption_eq_some _ _).mp hbr.symm
    obtain ⟨inp3, hin3, hres2, -⟩ :=
      submit_solution_ok_shape _ st2 cid sid u2 un2 txt2 res2 st3 hplain2
    subst hres2
    have happ : (get_first_success_for_squad st2.subs cid sid).isNone = false := by
      rw [hst]
      unfold get_first_success_for_squad at hnone ⊢
      rw [List.find?_append, hnone]
      simp [List.find?, hb, hn]
    simp only [happ, Bool.and_false]
  · intro st cid sid u un txt inp hin heq hnone
    have hb : (pyStrip inp.result_data == pyStrip txt) = true := beq_iff_eq.mpr heq
    simp [submit_solution_scored, hin, hb, hnone, _calculate_points]

/-- Claim C10, witness: with the module imported but the scoring call
always raising, the inside-`try` failures return `.ok 0` and a concrete
correct first submission commits with zero points and demotes the squad's
next correct submission; with the module unavailable, `_calculate_points`
propagates the import error and the same submission fails without
recording a row. -/
theorem calculate_points_failure_consumes_slot_witness :
    _calculate_points (some (fun _ _ _ => .error "boom")) none 0 0 = .ok 0 ∧
    _calculate_points (some (fun _ _ _ => .error "boom")) (some ⟨0, 1, 0⟩) 0 0 = .ok 0 ∧
    _calculate_points (some (fun _ _ _ => .error "boom")) (some ⟨0, 1, 1⟩) 0 0 = .ok 0 ∧
    _calculate_points none (some ⟨0, 1, 0⟩) 0 0
      = .error "ImportError: smarter_dev.web.scoring" ∧
    (⟨true, true, some 0⟩ : SubmitResult).is_first_success = true ∧
    (⟨true, false, none⟩ : SubmitResult).is_first_success = false ∧
    submit_solution_scored none (fun _ => none) 0
        ⟨[⟨1, 2, "in", "42", 0⟩], []⟩ 1 2 "u" "n" "42"
      = .error .databaseOperationError :=
  have hA := calculate_points_failure_consumes_slot
    (fun _ _ _ => .error "boom") (fun _ => none) 0 0 0 ⟨0, 1, 0⟩ "boom"
  have hB := calculate_points_failure_consumes_slot
    (fun _ _ _ => .error "boom") (fun _ => none) 0 0 0 ⟨0, 1, 1⟩ "boom"
  have h6 := hB.2.2.2.2.2.1 ⟨[⟨1, 2, "in", "42", 0⟩], []⟩ 1 2 "u" "n" "42"
    ⟨1, 2, "in", "42", 0⟩ ⟨true, true, some 0⟩
    ⟨[⟨1, 2, "in", "42", 0⟩], [⟨1, 2, "u", "n", "42", true, true, some 0⟩]⟩
    (fun _ _ => rfl) (by decide) (by decide) (by decide) (by decide)
  ⟨hA.1, hA.2.1 rfl, hB.2.2.1 (by decide) rfl, hA.2.2.2.1 (some ⟨0, 1, 0⟩),
   h6.2.1,
   h6.2.2.2 "v" "m" "42" ⟨true, false, none⟩
     ⟨[⟨1, 2, "in", "42", 0⟩],
      [⟨1, 2, "u", "n", "42", true, true, some 0⟩,
       ⟨1, 2, "v", "m", "42", true, false, none⟩]⟩ (by decide),
   hA.2.2.2.2.2.2 ⟨[⟨1, 2, "in", "42", 0⟩], []⟩ 1 2 "u" "n" "42"
     ⟨1, 2, "in", "42", 0⟩ (by decide) (by decide) (by decide)⟩

/-! ### Input generation idempotence (C4) -/

/-- Claim C4, counterexample: the generator script is *not* executed at
most once in every sequence of calls.  When the script fails, no row is
stored (the transaction rolls back), so the next call executes the script
again: two calls with a failing script perform two executions. -/
theorem generator_script_reexecuted_after_failure :
    (runGen ⟨[]⟩ [⟨1, 2, some (.error "boom"), 0⟩,
        ⟨1, 2, some (.error "boom"), 0⟩]).2.2 = 2 ∧
    ¬ (2 : Nat) ≤ 1 := by
  exact ⟨rfl, by decide⟩

/-- When a row for the pair already exists, `get_or_create_input` returns
its frozen data, leaves the store unchanged and runs no script. -/
theorem get_or_create_input_existing {st : InputStore} {cid sid : Nat}
    {row : ChallengeInput}
    (h : st.rows.find? (fun i => i.challenge_id == cid && i.squad_id == sid) = some row)
    (script : Option (Except String (String × String))) (now : Int) :
    get_or_create_input st cid sid script now
      = (.ok (row.input_data, row.result_data), st, 0) := by
  unfold get_or_create_input
  rw [h]

/-- Once a row for the pair exists, every later call targeting the pair
returns that row's data: successful results are frozen. -/
theorem runGen_ok_of_found :
    ∀ (calls : List GenCall) (st : InputStore) (cid sid : Nat)
      (row : ChallengeInput) (p : String × String),
      (∀ c ∈ calls, c.challenge_id = cid ∧ c.squad_id = sid) →
      st.rows.find? (fun i => i.challenge_id == cid && i.squad_id == sid) = some row →
      .ok p ∈ (runGen st calls).1 →
      p = (row.input_data, row.result_data) := by
  intro calls
  induction calls with
  | nil =>
    intro st cid sid row p hall hfound hmem
    simp [runGen] at hmem
  | cons c cs ih =>
    intro st cid sid row p hall hfound hmem
    obtain ⟨hc1, hc2⟩ := hall c (List.mem_cons_self c cs)
    subst hc1
    subst hc2
    simp only [runGen, get_or_create_input_existing hfound c.script c.now,
      List.mem_cons] at hmem
    rcases hmem with hmem | hmem
    · cases hmem
      rfl
    · exact ih st c.challenge_id c.squad_id row p
        (fun d hd => hall d (List.mem_cons_of_mem c hd)) hfound hmem

/-- Once a row for the pair exists, later calls targeting the pair never
execute the script. -/
theorem runGen_execs_zero_of_found :
    ∀ (calls : List GenCall) (st : InputStore) (cid sid : Nat)
      (row : ChallengeInput),
      (∀ c ∈ calls, c.challenge_id = cid ∧ c.squad_id = sid) →
      st.rows.find? (fun i => i.challenge_id == cid && i.squad_id == sid) = some row →
      (runGen st calls).2.2 = 0 := by
  intro calls
  induction calls with
  | nil =>
    intro st cid sid row hall hfound
    simp [runGen]
  | cons c cs ih =>
    intro st cid sid row hall hfound
    obtain ⟨hc1, hc2⟩ := hall c (List.mem_cons_self c cs)
    subst hc1
    subst hc2
    simp only [runGen, get_or_create_input_existing hfound c.script c.now, Nat.zero_add]
    exact ih st c.challenge_id c.squad_id row
      (fun d hd => hall d (List.mem_cons_of_mem c hd)) hfound

/-- The row freshly inserted for a pair is found by the pair's lookup. -/
theorem find_inserted_row (rows : List ChallengeInput) (cid sid : Nat)
    (i r : String) (now : Int)
    (hnone : rows.find? (fun x => x.challenge_id == cid && x.squad_id == sid) = none) :
    (rows ++ [(⟨cid, sid, i, r, now⟩ : ChallengeInput)]).find?
        (fun x => x.challenge_id == cid && x.squad_id == sid)
      = some (⟨cid, sid, i, r, now⟩ : ChallengeInput) := by
  rw [List.find?_append, hnone]
  simp [List.find?]

/-- Any two successful results of a sequence of calls targeting one
(challenge, squad) pair are identical. -/
theorem runGen_ok_unique :
    ∀ (calls : List GenCall) (st : InputStore) (cid sid : Nat) (p q : String × String),
      (∀ c ∈ calls, c.challenge_id = cid ∧ c.squad_id = sid) →
      .ok p ∈ (runGen st calls).1 → .ok q ∈ (runGen st calls).1 → p = q := by
  intro calls
  induction calls with
  | nil =>
    intro st cid sid p q hall hp hq
    simp [runGen] at hp
  | cons c cs ih =>
    intro st cid sid p q hall hp hq
    obtain ⟨hc1, hc2⟩ := hall c (List.mem_cons_self c cs)
    have hall2 : ∀ d ∈ cs, d.challenge_id = cid ∧ d.squad_id = sid :=
      fun d hd => hall d (List.mem_cons_of_mem c hd)
    cases hfound : st.rows.find? (fun x => x.challenge_id == cid && x.squad_id == sid) with
    | some row =>
      have hp2 := runGen_ok_of_found (c :: cs) st cid sid row p hall hfound hp
      have hq2 := runGen_ok_of_found (c :: cs) st cid sid row q hall hfound hq
      rw [hp2, hq2]
    | none =>
      subst hc1
      subst hc2
      cases hscript : c.script with
      | none =>
        simp only [runGen, get_or_create_input, hfound, hscript, List.mem_cons] at hp hq
        rcases hp with hp | hp
        · exact absurd hp (by simp)
        · rcases hq with hq | hq
          · exact absurd hq (by simp)
          · exact ih st c.challenge_id c.squad_id p q hall2 hp hq
      | some outcome =>
        cases outcome with
        | error e =>
          simp only [runGen, get_or_create_input, hfound, hscript, List.mem_cons] at hp hq
          rcases hp with hp | hp
          · exact absurd hp (by simp)
          · rcases hq with hq | hq
            · exact absurd hq (by simp)
            · exact ih st c.challenge_id c.squad_id p q hall2 hp hq
        | ok pr =>
          obtain ⟨i, r⟩ := pr
          have hfind2 := find_inserted_row st.rows c.challenge_id c.squad_id i r c.now hfound
          simp only [runGen, get_or_create_input, hfound, hscript, List.mem_cons] at hp hq
          have hmem : ∀ z : String × String,
              .ok z ∈ (runGen ⟨st.rows ++ [⟨c.challenge_id, c.squad_id, i, r, c.now⟩]⟩ cs).1 →
              z = (i, r) := by
            intro z hz
            exact runGen_ok_of_found cs _ c.challenge_id c.squad_id
              ⟨c.challenge_id, c.squad_id, i, r, c.now⟩ z hall2 hfind2 hz
          rcases hp with hp | hp
          · rcases hq with hq | hq
            · rw [Except.ok.injEq] at hp hq
              rw [hp, hq]
            · rw [Except.ok.injEq] at hp
              rw [hp, hmem q hq]
          · rcases hq with hq | hq
            · rw [Except.ok.injEq] at hq
              rw [hq, hmem p hp]
            · rw [hmem p hp, hmem q hq]

/-- Claim C4 (amended): `get_or_create_input` freezes the pair's data.  If
a row already exists, every call returns its data unconditionally and
unchanged with no script execution; all successful calls for a pair return
the identical pair; and once a row exists (in particular after the first
successful call) the generator script is never executed again.  The
only amendment to the claim: while every execution has *failed* (storing
nothing), a retry executes the script again, so "executed at most once"
holds for calls made after any success but not across failed attempts. -/
theorem get_or_create_input_idempotent :
    ∀ (st : InputStore) (cid sid : Nat) (row : ChallengeInput)
      (script : Option (Except String (String × String))) (now : Int)
      (calls : List GenCall) (p q : String × String),
      (st.rows.find? (fun i => i.challenge_id == cid && i.squad_id == sid) = some row →
        get_or_create_input st cid sid script now
          = (.ok (row.input_data, row.result_data), st, 0)) ∧
      ((∀ c ∈ calls, c.challenge_id = cid ∧ c.squad_id = sid) →
        (st.rows.find? (fun i => i.challenge_id == cid && i.squad_id == sid) = some row →
          (runGen st calls).2.2 = 0) ∧
        (.ok p ∈ (runGen st calls).1 → .ok q ∈ (runGen st calls).1 → p = q)) := by
  intro st cid sid row script now calls p q
  refine ⟨fun h => get_or_create_input_existing h script now, fun hall => ⟨?_, ?_⟩⟩
  · intro h
    exact runGen_execs_zero_of_found calls st cid sid row hall h
  · intro hp hq
    exact runGen_ok_unique calls st cid sid p q hall hp hq

/-- Claim C4, witness: the idempotence theorem applied to a store already
holding a frozen row for (1, 2) and two further calls, whose successful
results coincide. -/
theorem get_or_create_input_idempotent_witness :
    get_or_create_input ⟨[⟨1, 2, "in", "42", 0⟩]⟩ 1 2 (some (.ok ("x", "y"))) 9
      = (.ok ("in", "42"), ⟨[⟨1, 2, "in", "42", 0⟩]⟩, 0) ∧
    (runGen ⟨[⟨1, 2, "in", "42", 0⟩]⟩
        [⟨1, 2, some (.ok ("x", "y")), 9⟩, ⟨1, 2, none, 10⟩]).2.2 = 0 ∧
    ("in", "42") = ("in", "42") :=
  have h := get_or_create_input_idempotent ⟨[⟨1, 2, "in", "42", 0⟩]⟩ 1 2
    ⟨1, 2, "in", "42", 0⟩ (some (.ok ("x", "y"))) 9
    [⟨1, 2, some (.ok ("x", "y")), 9⟩, ⟨1, 2, none, 10⟩] ("in", "42") ("in", "42")
  have h2 := h.2 (by decide)
  ⟨h.1 (by decide), h2.1 (by decide), h2.2 (by decide) (by decide)⟩

/-! ### Scoreboard aggregation (C9) -/

/-- Membership across the descending insertion. -/
theorem mem_insertByPointsDesc (e x : ScoreboardEntry) (l : List ScoreboardEntry) :
    x ∈ insertByPointsDesc e l ↔ x = e ∨ x ∈ l := by
  induction l with
  | nil => simp [insertByPointsDesc]
  | cons a as ih =>
    unfold insertByPointsDesc
    by_cases h : a.total_points < e.total_points
    · rw [if_pos h]
      simp only [List.mem_cons]
    · rw [if_neg h]
      simp only [List.mem_cons, ih]
      tauto

/-- Sorting by descending points neither adds nor removes entries. -/
theorem mem_sortByPointsDesc (x : ScoreboardEntry) (l : List ScoreboardEntry) :
    x ∈ sortByPointsDesc l ↔ x ∈ l := by
  induction l with
  | nil => simp [sortByPointsDesc]
  | cons a as ih =>
    show x ∈ insertByPointsDesc a (sortByPointsDesc as) ↔ _
    rw [mem_insertByPointsDesc]
    simp only [List.mem_cons, ih]

/-- Inserting into a list sorted by descending points keeps it sorted. -/
theorem pairwise_insertByPointsDesc (e : ScoreboardEntry) (l : List ScoreboardEntry)
    (h : l.Pairwise (fun a b => b.total_points ≤ a.total_points)) :
    (insertByPointsDesc e l).Pairwise (fun a b => b.total_points ≤ a.total_points) := by
  induction l with
  | nil => simp [insertByPointsDesc]
  | cons a as ih =>
    rw [List.pairwise_cons] at h
    obtain ⟨ha, has⟩ := h
    unfold insertByPointsDesc
    by_cases hc : a.total_points < e.total_points
    · rw [if_pos hc]
      rw [List.pairwise_cons]
      refine ⟨?_, List.pairwise_cons.mpr ⟨ha, has⟩⟩
      intro b hb
      rcases List.mem_cons.mp hb with rfl | hb2
      · exact le_of_lt hc
      · exact le_trans (ha b hb2) (le_of_lt hc)
    · rw [if_neg hc]
      rw [List.pairwise_cons]
      refine ⟨?_, ih has⟩
      intro b hb
      rcases (mem_insertByPointsDesc e b as).mp hb with rfl | hb2
      · exact le_of_not_lt hc
      · exact ha b hb2

/-- The scoreboard order is sorted by descending total points. -/
theorem pairwise_sortByPointsDesc (l : List ScoreboardEntry) :
    (sortByPointsDesc l).Pairwise (fun a b => b.total_points ≤ a.total_points) := by
  induction l with
  | nil => simp [sortByPointsDesc]
  | cons a as ih =>
    show (insertByPointsDesc a (sortByPointsDesc as)).Pairwise _
    exact pairwise_insertByPointsDesc a _ ih

/-- Claim C9, counterexample: a squad with a single *incorrect* submission
in the campaign — hence no first-success submission — still receives a
scoreboard entry (with zero points), contradicting the claim that only
squads with at least one first-success submission appear. -/
theorem scoreboard_includes_squad_without_first_success :
    get_campaign_scoreboard [⟨7, "A"⟩] [freshChallenge]
        [⟨1, 7, "u", "n", "guess", false, false, none⟩] 1
      = [⟨7, "A", 0, 0⟩] ∧
    (⟨1, 7, "u", "n", "guess", false, false, none⟩ :
      ChallengeSubmission).is_first_success = false := by
  exact ⟨by decide, rfl⟩

/-- Claim C9 (amended): `get_campaign_scoreboard` returns one entry for
each squad with at least one recorded submission *of any kind* in the
campaign (not only first successes) and no entry for any other squad; each
entry carries the sum of `points_earned` over that squad's submissions in
the campaign (nulls contributing nothing) and the count of its
first-success submissions; and entries are sorted by descending total
points. -/
theorem campaign_scoreboard_entries :
    ∀ (squads : List Squad) (challenges : List Challenge)
      (subs : List ChallengeSubmission) (campaign_id : Nat) (e : ScoreboardEntry)
      (sq : Squad),
      (e ∈ get_campaign_scoreboard squads challenges subs campaign_id →
        ∃ sq2 ∈ squads,
          squad_campaign_submissions challenges subs campaign_id sq2.id ≠ [] ∧
          e = mkScoreboardEntry sq2
            (squad_campaign_submissions challenges subs campaign_id sq2.id)) ∧
      (sq ∈ squads →
        squad_campaign_submissions challenges subs campaign_id sq.id ≠ [] →
        mkScoreboardEntry sq (squad_campaign_submissions challenges subs campaign_id sq.id)
          ∈ get_campaign_scoreboard squads challenges subs campaign_id) ∧
      (get_campaign_scoreboard squads challenges subs campaign_id).Pairwise
        (fun a b => b.total_points ≤ a.total_points) := by
  intro squads challenges subs campaign_id e sq
  refine ⟨?_, ?_, pairwise_sortByPointsDesc _⟩
  · intro he
    unfold get_campaign_scoreboard at he
    rw [mem_sortByPointsDesc, List.mem_filterMap] at he
    obtain ⟨sq2, hsq2, hmk⟩ := he
    by_cases hempty :
        (squad_campaign_submissions challenges subs campaign_id sq2.id).isEmpty = true
    · rw [if_pos hempty] at hmk
      exact absurd hmk (by simp)
    · rw [if_neg hempty] at hmk
      refine ⟨sq2, hsq2, ?_, ?_⟩
      · intro hnil
        exact hempty (by rw [hnil]; rfl)
      · injection hmk with h
        exact h.symm
  · intro hsq hne
    unfold get_campaign_scoreboard
    rw [mem_sortByPointsDesc, List.mem_filterMap]
    refine ⟨sq, hsq, ?_⟩
    have hfalse :
        (squad_campaign_submissions challenges subs campaign_id sq.id).isEmpty = false := by
      cases h : squad_campaign_submissions challenges subs campaign_id sq.id with
      | nil => exact absurd h hne
      | cons a as => rfl
    rw [if_neg (by rw [hfalse]; exact Bool.false_ne_true)]

/-- Claim C9, witness: the scoreboard characterization applied to a
concrete campaign with one scoring squad and one scoreless squad. -/
theorem campaign_scoreboard_entries_witness :
    (∃ sq2 ∈ [(⟨7, "A"⟩ : Squad), ⟨8, "B"⟩],
      squad_campaign_submissions [freshChallenge]
          [⟨1, 7, "u", "n", "42", true, true, some 9⟩] 1 sq2.id ≠ [] ∧
      (⟨7, "A", 9, 1⟩ : ScoreboardEntry) = mkScoreboardEntry sq2
        (squad_campaign_submissions [freshChallenge]
          [⟨1, 7, "u", "n", "42", true, true, some 9⟩] 1 sq2.id)) ∧
    mkScoreboardEntry ⟨7, "A"⟩
        (squad_campaign_submissions [freshChallenge]
          [⟨1, 7, "u", "n", "42", true, true, some 9⟩] 1 7)
      ∈ get_campaign_scoreboard [⟨7, "A"⟩, ⟨8, "B"⟩] [freshChallenge]
          [⟨1, 7, "u", "n", "42", true, true, some 9⟩] 1 :=
  have h := campaign_scoreboard_entries [⟨7, "A"⟩, ⟨8, "B"⟩] [freshChallenge]
    [⟨1, 7, "u", "n", "42", true, true, some 9⟩] 1 ⟨7, "A", 9, 1⟩ ⟨7, "A"⟩
  ⟨h.1 (by decide), h.2.1 (by decide) (by decide)⟩

end SmarterDev
